import Mathlib

/-!
Verification development for the dmi-ingestor repository.

The repository contains two near-duplicate Python pipelines,
`src/dmi_ingestor/ingestor.py` (multi-parameter) and
`src/dmi_ingester/ingester.py` (legacy single-parameter).  The claims under
study all concern the multi-parameter pipeline, so that file is the one
embedded here.

Modelling conventions:
  * Timestamps are represented by their Python string rendering `str(t)`;
    the pipeline only ever consumes timestamps through `str(t)`.
  * An xarray dataset is modelled by its list of timestamp strings together
    with the spatial-reference string it currently carries.
  * The object store is a finite association list from object key to object
    content; `S3FileSystem.rm(path, recursive=True)` and uploads are given
    explicit semantics on it.  Band raster bytes are outside the modelled
    boundary (the raster engine is an external collaborator), so a band
    upload carries its file name as its content stand-in; the manifest
    content is modelled byte-for-byte.
  * Fault injection: an HTTP fetch either succeeds with a dataset or raises
    `requests.HTTPError`; a band upload may raise an I/O error at a chosen
    band index (`failBandAt`).  That reproduces the only failure paths the
    claims talk about.
-/

/-- Python `s.lstrip(chars)`: removes the leading characters of `s` that
belong to the character SET `chars` (it does not remove the literal prefix
string `chars`).  Used by `ingestor.py` line 104 as `endpoint.lstrip('https://')`. -/
def pyLstrip (s : String) (chars : String) : String :=
  ⟨s.data.dropWhile (fun c => chars.data.contains c)⟩

/-- Python `s.startswith(p)`.  Used by `ingestor.py` lines 160 and 191 as
`collection.startswith("harmonie")`. -/
def pyStartsWith (s : String) (p : String) : Bool :=
  p.data.isPrefixOf s.data

/-- Band-key derivation, `ingestor.py` line 98:
`str(t).split('.')[0].replace("-", "").replace(":", "")`.
`split('.')[0]` keeps everything before the first dot (sub-second digits are
dropped); the two `replace` calls delete every hyphen and colon.  Nothing
else is removed - in particular the `T` date-time separator survives. -/
def timeKey (t : String) : String :=
  ⟨((t.data.takeWhile (fun c => c != '.')).filter (fun c => c != '-')).filter
    (fun c => c != ':')⟩

/-- Python dict assignment `d[k] = v` on an insertion-ordered dict: an
existing key keeps its position and gets the new value, a fresh key is
appended at the end. -/
def dictInsert (d : List (String × String)) (k v : String) :
    List (String × String) :=
  if d.any (fun kv => kv.1 == k) then
    d.map (fun kv => if kv.1 == k then (k, v) else kv)
  else d ++ [(k, v)]

/-- One entry of `json.dump(data, fp, indent=4)` for a string-valued dict. -/
def jsonEntry (kv : String × String) : String :=
  "    \"" ++ kv.1 ++ "\": \"" ++ kv.2 ++ "\""

/-- Python `json.dump(d, fp, indent=4)` output for an insertion-ordered dict
of strings (`ingestor.py` line 202).  The empty dict serializes as two brace
characters. -/
def jsonDumpDict (d : List (String × String)) : String :=
  match d with
  | [] => "\x7b\x7d"
  | _ => "\x7b\n" ++ String.intercalate ",\n" (d.map jsonEntry) ++ "\n\x7d"

def LCC_DMI_WKT : String :=
  "PROJCRS[\"DMI HARMONIE DINI lambert projection\"," ++ "\n" ++
  "BASEGEOGCRS[\"DMI HARMONIE DINI lambert CRS\"," ++ "\n" ++
  "    DATUM[\"DMI HARMONIE DINI lambert datum\"," ++ "\n" ++
  "        ELLIPSOID[\"Sphere\",6371229,0," ++ "\n" ++
  "            LENGTHUNIT[\"metre\",1," ++ "\n" ++
  "                ID[\"EPSG\",9001]]]]," ++ "\n" ++
  "    PRIMEM[\"Greenwich\",0," ++ "\n" ++
  "        ANGLEUNIT[\"degree\",0.0174532925199433," ++ "\n" ++
  "            ID[\"EPSG\",9122]]]]," ++ "\n" ++
  "CONVERSION[\"Lambert Conic Conformal (2SP)\"," ++ "\n" ++
  "    METHOD[\"Lambert Conic Conformal (2SP)\"," ++ "\n" ++
  "        ID[\"EPSG\",9802]]," ++ "\n" ++
  "    PARAMETER[\"Latitude of false origin\",55.5," ++ "\n" ++
  "        ANGLEUNIT[\"degree\",0.0174532925199433]," ++ "\n" ++
  "        ID[\"EPSG\",8821]]," ++ "\n" ++
  "    PARAMETER[\"Longitude of false origin\",-8," ++ "\n" ++
  "        ANGLEUNIT[\"degree\",0.0174532925199433]," ++ "\n" ++
  "        ID[\"EPSG\",8822]]," ++ "\n" ++
  "    PARAMETER[\"Latitude of 1st standard parallel\",55.5," ++ "\n" ++
  "        ANGLEUNIT[\"degree\",0.0174532925199433]," ++ "\n" ++
  "        ID[\"EPSG\",8823]]," ++ "\n" ++
  "    PARAMETER[\"Latitude of 2nd standard parallel\",55.5," ++ "\n" ++
  "        ANGLEUNIT[\"degree\",0.0174532925199433]," ++ "\n" ++
  "        ID[\"EPSG\",8824]]," ++ "\n" ++
  "    PARAMETER[\"Easting at false origin\",0," ++ "\n" ++
  "        LENGTHUNIT[\"metre\",1]," ++ "\n" ++
  "        ID[\"EPSG\",8826]]," ++ "\n" ++
  "    PARAMETER[\"Northing at false origin\",0," ++ "\n" ++
  "        LENGTHUNIT[\"metre\",1]," ++ "\n" ++
  "        ID[\"EPSG\",8827]]]," ++ "\n" ++
  "CS[Cartesian,2]," ++ "\n" ++
  "    AXIS[\"(E)\",east," ++ "\n" ++
  "        ORDER[1]," ++ "\n" ++
  "        LENGTHUNIT[\"Metre\",1]]," ++ "\n" ++
  "    AXIS[\"(N)\",north," ++ "\n" ++
  "        ORDER[2]," ++ "\n" ++
  "        LENGTHUNIT[\"Metre\",1]]]"

/-- An xarray dataset as the pipeline observes it: the `str` renderings of
its `time` coordinate values, and the coordinate reference it carries. -/
structure Dataset where
  times : List String
  crs : String
  deriving DecidableEq

/-- `ingestor.py` lines 86-90: tag the dataset with the hard-coded Lambert
WKT (`rio.write_crs(crs_from, inplace=True)`) and reproject it to `crs_to`
(the Python default argument is `"epsg:4326"`). -/
def reproject_from_lambert (xarray_dataset : Dataset) (crs_to : String) :
    Dataset :=
  let tagged : Dataset := { xarray_dataset with crs := LCC_DMI_WKT }
  { tagged with crs := crs_to }

/-- `ingestor.py` lines 160-163: the `crs` query parameter sent upstream is
`"native"` for harmonie-family collections and `"crs84"` otherwise. -/
def crsQueryHint (collection : String) : String :=
  if pyStartsWith collection "harmonie" then "native" else "crs84"

/-- `ingestor.py` lines 191-192: the fetched dataset is reprojected from the
fixed Lambert grid exactly when the collection name starts with
`"harmonie"`; otherwise it is passed on unchanged. -/
def normalizeDataset (collection : String) (ds : Dataset) : Dataset :=
  if pyStartsWith collection "harmonie" then
    reproject_from_lambert ds "epsg:4326"
  else ds

/-- A storage side effect at the S3-compatible object store. -/
inductive StorageEvent where
  | delTree (path : String)
  | uploadObject (key : String) (content : String)
  deriving DecidableEq

/-- One local band-file write performed by `gdal.Translate` in
`ingestor.py` line 100, recording the extracted raster band number
(`bandList=[band+1]`). -/
structure BandWrite where
  file : String
  bandNumber : Nat
  deriving DecidableEq

/-- Outcome of `transform_cog_to_single_bands_and_upload_to_bucket`: the
uploads performed, the local band files written, the `forecasts` dict, and
whether the loop ran to completion (`ok = false` means an upload raised). -/
structure TransformResult where
  storage : List StorageEvent
  locals : List BandWrite
  forecasts : List (String × String)
  ok : Bool
  deriving DecidableEq

/-- `ingestor.py` line 102: the bucket object key of one band,
`f"(bucket_name)/(bucket_path)/(basename)"`. -/
def bandObjectKey (bucket_name bucket_path file : String) : String :=
  bucket_name ++ "/" ++ bucket_path ++ "/" ++ file

/-- `ingestor.py` line 104: the public URL recorded in the manifest,
built with `endpoint.lstrip('https://')` - a character-set strip, not a
prefix removal. -/
def publicAddress (bucket_name endpoint bucket_path file : String) : String :=
  "https://" ++ bucket_name ++ "." ++ pyLstrip endpoint "https://" ++ "/" ++
    bucket_path ++ "/" ++ file

/-- Loop body of `transform_cog_to_single_bands_and_upload_to_bucket`
(`ingestor.py` lines 97-106): `band` is the 0-based loop index, `forecasts`
the dict built so far.  Each iteration writes the local band file first;
when `upload` is set it then uploads the band (possibly raising, modelled by
`failAt`) and records the key-to-address entry. -/
def transformGo (folder_name bucket_name bucket_path endpoint : String)
    (upload : Bool) (failAt : Option Nat) (band : Nat)
    (forecasts : List (String × String)) : List String → TransformResult
  | [] => { storage := [], locals := [], forecasts := forecasts, ok := true }
  | t :: ts =>
    let time_str := timeKey t
    let output_file := folder_name ++ "/" ++ time_str ++ ".tif"
    let w : BandWrite := { file := output_file, bandNumber := band + 1 }
    if upload then
      if failAt == some band then
        { storage := [], locals := [w], forecasts := forecasts, ok := false }
      else
        let addr := publicAddress bucket_name endpoint bucket_path
          (time_str ++ ".tif")
        let r := transformGo folder_name bucket_name bucket_path endpoint
          upload failAt (band + 1) (dictInsert forecasts time_str addr) ts
        { storage := StorageEvent.uploadObject
            (bandObjectKey bucket_name bucket_path (time_str ++ ".tif"))
            (time_str ++ ".tif") :: r.storage,
          locals := w :: r.locals, forecasts := r.forecasts, ok := r.ok }
    else
      let r := transformGo folder_name bucket_name bucket_path endpoint
        upload failAt (band + 1) forecasts ts
      { storage := r.storage, locals := w :: r.locals,
        forecasts := r.forecasts, ok := r.ok }

/-- `ingestor.py` lines 93-108 (credentials and the opened COG handle are
outside the modelled boundary). -/
def transform_cog_to_single_bands_and_upload_to_bucket (folder_name : String)
    (times : List String) (bucket_name bucket_path endpoint : String)
    (upload : Bool) (failAt : Option Nat) : TransformResult :=
  transformGo folder_name bucket_name bucket_path endpoint upload failAt 0 []
    times

/-- The environment-derived configuration read in `ingestor.py`
lines 127-136 (credentials and the API key are outside the modelled
boundary; `parameters` is supplied per run below). -/
structure Config where
  bucketEndpoint : String
  bucketName : String
  bucketBasePath : String
  upload : Bool
  collection : String
  deriving DecidableEq

/-- Outcome of `response.raise_for_status()`: either `requests.HTTPError`
was raised (non-success status) or the decoded dataset is available. -/
inductive FetchResult where
  | httpError
  | success (ds : Dataset)
  deriving DecidableEq

/-- One configured parameter together with the injected behaviour of its
external collaborators: the fetch outcome, and the band index (if any) at
which `upload_to_bucket` raises an I/O error. -/
structure ParamRun where
  name : String
  fetch : FetchResult
  failBandAt : Option Nat
  deriving DecidableEq

/-- Observable outcome of one parameter's pipeline: the storage side
effects in order, the local band files written, and whether the iteration
finished without an uncaught exception. -/
structure RunResult where
  storage : List StorageEvent
  locals : List BandWrite
  ok : Bool
  deriving DecidableEq

def baseDataDir : String := "/app/data"

/-- `ingestor.py` line 149. -/
def bucketPathOf (cfg : Config) (parameter : String) : String :=
  cfg.bucketBasePath ++ "/" ++ cfg.collection ++ "/" ++ parameter

/-- `ingestor.py` line 150: the Publication Target of one parameter. -/
def bucketPathFullOf (cfg : Config) (parameter : String) : String :=
  cfg.bucketName ++ "/" ++ bucketPathOf cfg parameter

/-- `ingestor.py` line 151: the manifest object key. -/
def manifestKeyOf (cfg : Config) (parameter : String) : String :=
  bucketPathFullOf cfg parameter ++ "/forecasts.json"

/-- The transform call of `ingestor.py` lines 198-200 for one parameter,
fed with the (possibly reprojected) dataset's time values. -/
def trOf (cfg : Config) (p : ParamRun) (ds : Dataset) : TransformResult :=
  transform_cog_to_single_bands_and_upload_to_bucket baseDataDir
    (normalizeDataset cfg.collection ds).times cfg.bucketName
    (bucketPathOf cfg p.name) cfg.bucketEndpoint cfg.upload p.failBandAt

/-- One iteration of the parameter loop, `ingestor.py` lines 147-210.
On `HTTPError` the error is logged and nothing else happens.  Otherwise the
prior Publication Target is deleted, the dataset is normalized and split
into bands, and - when the band loop did not raise - the manifest is
serialized and uploaded.  `ok = false` means an exception escaped the loop
body. -/
def runParam (cfg : Config) (p : ParamRun) : RunResult :=
  match p.fetch with
  | FetchResult.httpError => { storage := [], locals := [], ok := true }
  | FetchResult.success ds =>
    let tr := trOf cfg p ds
    if tr.ok then
      { storage := StorageEvent.delTree (bucketPathFullOf cfg p.name) ::
          tr.storage ++ [StorageEvent.uploadObject (manifestKeyOf cfg p.name)
            (jsonDumpDict tr.forecasts)],
        locals := tr.locals, ok := true }
    else
      { storage := StorageEvent.delTree (bucketPathFullOf cfg p.name) ::
          tr.storage,
        locals := tr.locals, ok := false }

/-- The whole `for parameter in parameters.split(",")` loop: parameters are
processed in order; an uncaught exception in one iteration aborts the whole
process, while a caught fetch error lets the loop continue. -/
def runAll (cfg : Config) : List ParamRun → List StorageEvent × Bool
  | [] => ([], true)
  | p :: ps =>
    let r := runParam cfg p
    if r.ok then
      let rest := runAll cfg ps
      (r.storage ++ rest.1, rest.2)
    else (r.storage, false)

/-- The object store: an association list from object key to content. -/
abbrev Store := List (String × String)

/-- Whether object `key` lies under the path `path` (it is the path itself
or below it), the recursive-removal scope of `s3.rm(path, recursive=True)`. -/
def keyUnder (path : String) (key : String) : Bool :=
  key == path || (path ++ "/").data.isPrefixOf key.data

/-- Model of `S3FileSystem.rm(path, recursive=True)`: removes every object
under `path`; raises `FileNotFoundError` when nothing exists there. -/
def s3rmRecursive (store : Store) (path : String) : Except String Store :=
  if store.any (fun kv => keyUnder path kv.1) then
    Except.ok (store.filter (fun kv => !keyUnder path kv.1))
  else Except.error "FileNotFoundError"

/-- `ingestor.py` lines 66-76: `delete_outdated_forecasts` calls `s3.rm`
recursively and catches `FileNotFoundError`, logging it at debug level and
treating the absence as success. -/
def delete_outdated_forecasts (store : Store) (bucket_path : String) :
    Except String Store :=
  match s3rmRecursive store bucket_path with
  | Except.ok s => Except.ok s
  | Except.error _ => Except.ok store

/-- Effect of one storage event on the store.  Deletion goes through
`delete_outdated_forecasts` (which never fails); an upload overwrites. -/
def applyEvent (store : Store) : StorageEvent → Store
  | StorageEvent.delTree p =>
    match delete_outdated_forecasts store p with
    | Except.ok s => s
    | Except.error _ => store
  | StorageEvent.uploadObject k c => dictInsert store k c

/-- Replay a list of storage events on a store, left to right. -/
def applyEvents (store : Store) (evs : List StorageEvent) : Store :=
  evs.foldl applyEvent store

/-- The part of the store lying under `path`. -/
def storeUnder (path : String) (store : Store) : Store :=
  store.filter (fun kv => keyUnder path kv.1)

/-- The band upload performed for timestamp `t` (`ingestor.py` line 102). -/
def bandUploadEvent (bucket_name bucket_path t : String) : StorageEvent :=
  StorageEvent.uploadObject
    (bandObjectKey bucket_name bucket_path (timeKey t ++ ".tif"))
    (timeKey t ++ ".tif")

/-- A storage event that stays inside the Publication Target `t`: an upload
whose key lies under `t`. -/
def eventUnder (t : String) : StorageEvent → Prop
  | StorageEvent.delTree _ => False
  | StorageEvent.uploadObject k _ => keyUnder t k = true

lemma keyUnder_append (t f : String) : keyUnder t (t ++ "/" ++ f) = true := by
  simp [keyUnder, List.isPrefixOf_iff_prefix]

lemma manifestKey_eq (cfg : Config) (par : String) :
    manifestKeyOf cfg par = bucketPathFullOf cfg par ++ "/" ++ "forecasts.json" := by
  have h : ("/forecasts.json" : String) = "/" ++ "forecasts.json" := rfl
  rw [manifestKeyOf, h, ← String.append_assoc]

lemma keyUnder_manifestKey (cfg : Config) (par : String) :
    keyUnder (bucketPathFullOf cfg par) (manifestKeyOf cfg par) = true := by
  rw [manifestKey_eq]
  exact keyUnder_append _ _

lemma normalize_times (collection : String) (ds : Dataset) :
    (normalizeDataset collection ds).times = ds.times := by
  by_cases h : pyStartsWith collection "harmonie" = true
  · simp [normalizeDataset, reproject_from_lambert, h]
  · simp [normalizeDataset, h]

lemma applyEvent_delTree (s : Store) (p : String) :
    applyEvent s (StorageEvent.delTree p) =
      s.filter (fun kv => !keyUnder p kv.1) := by
  by_cases h : s.any (fun kv => keyUnder p kv.1) = true
  · simp [applyEvent, delete_outdated_forecasts, s3rmRecursive, h]
  · have hfalse : s.any (fun kv => keyUnder p kv.1) = false :=
      Bool.eq_false_iff.mpr h
    have hall := List.any_eq_false.mp hfalse
    have hid : s.filter (fun kv => !keyUnder p kv.1) = s :=
      List.filter_eq_self.mpr (fun a ha => by simpa using hall a ha)
    simp [applyEvent, delete_outdated_forecasts, s3rmRecursive, hfalse, hid]

lemma storeUnder_applyEvent_delTree (s : Store) (t : String) :
    storeUnder t (applyEvent s (StorageEvent.delTree t)) = [] := by
  rw [applyEvent_delTree]
  simp [storeUnder, List.filter_filter]

lemma any_key_filter (t k : String) (hk : keyUnder t k = true) (s : Store) :
    (s.filter (fun kv => keyUnder t kv.1)).any (fun kv => kv.1 == k)
      = s.any (fun kv => kv.1 == k) := by
  induction s with
  | nil => rfl
  | cons kv s ih =>
    by_cases h : (kv.1 == k) = true
    · have hkv : kv.1 = k := by simpa using h
      have h2 : keyUnder t kv.1 = true := hkv ▸ hk
      simp [List.filter_cons, h2, h]
    · by_cases h2 : keyUnder t kv.1 = true
      · simp [List.filter_cons, h2, h, ih]
      · simp [List.filter_cons, h2, h, ih]

lemma filter_map_upd (t k v : String) (hk : keyUnder t k = true) (s : Store) :
    (s.map (fun kv => if kv.1 == k then (k, v) else kv)).filter
        (fun kv => keyUnder t kv.1)
      = (s.filter (fun kv => keyUnder t kv.1)).map
          (fun kv => if kv.1 == k then (k, v) else kv) := by
  induction s with
  | nil => rfl
  | cons kv s ih =>
    have ih' := ih
    simp only [beq_iff_eq] at ih'
    by_cases h : (kv.1 == k) = true
    · have hkv : kv.1 = k := by simpa using h
      simp [List.map_cons, List.filter_cons, hkv, hk, ih']
    · have hne : kv.1 ≠ k := by simpa using h
      by_cases h2 : keyUnder t kv.1 = true
      · simp [List.map_cons, List.filter_cons, hne, h2, ih']
      · simp [List.map_cons, List.filter_cons, hne, h2, ih']

lemma storeUnder_dictInsert (t k v : String) (hk : keyUnder t k = true)
    (s : Store) :
    storeUnder t (dictInsert s k v) = dictInsert (storeUnder t s) k v := by
  by_cases hany : s.any (fun kv => kv.1 == k) = true
  · have hany2 : (storeUnder t s).any (fun kv => kv.1 == k) = true := by
      rw [storeUnder, any_key_filter t k hk]; exact hany
    rw [dictInsert, if_pos hany, dictInsert, if_pos hany2, storeUnder,
      storeUnder, filter_map_upd t k v hk]
  · have hany2 : ¬ (storeUnder t s).any (fun kv => kv.1 == k) = true := by
      rw [storeUnder, any_key_filter t k hk]; exact hany
    rw [dictInsert, if_neg hany, dictInsert, if_neg hany2, storeUnder,
      List.filter_append, storeUnder]
    simp [List.filter_cons, hk]

lemma storeUnder_applyEvents_congr (t : String) (evs : List StorageEvent) :
    (∀ e ∈ evs, eventUnder t e) →
      ∀ s₁ s₂ : Store, storeUnder t s₁ = storeUnder t s₂ →
        storeUnder t (applyEvents s₁ evs) = storeUnder t (applyEvents s₂ evs) := by
  induction evs with
  | nil => intro _ s₁ s₂ h; exact h
  | cons e evs ih =>
    intro hall s₁ s₂ h
    match e with
    | StorageEvent.delTree p =>
      exact absurd (hall _ (List.mem_cons_self _ _)) (fun hf => hf)
    | StorageEvent.uploadObject k c =>
      have hk : keyUnder t k = true := hall _ (List.mem_cons_self _ _)
      have h' : storeUnder t (dictInsert s₁ k c)
          = storeUnder t (dictInsert s₂ k c) := by
        rw [storeUnder_dictInsert t k c hk, storeUnder_dictInsert t k c hk, h]
      exact ih (fun x hx => hall x (List.mem_cons_of_mem _ hx)) _ _ h'

lemma transformGo_no_upload (f bn bp ep : String) (fa : Option Nat) :
    ∀ (ts : List String) (b : Nat) (fc : List (String × String)),
      (transformGo f bn bp ep false fa b fc ts).storage = [] ∧
      (transformGo f bn bp ep false fa b fc ts).forecasts = fc ∧
      (transformGo f bn bp ep false fa b fc ts).ok = true ∧
      (transformGo f bn bp ep false fa b fc ts).locals.length = ts.length
  | [], b, fc => by simp [transformGo]
  | t :: ts, b, fc => by
    have ih := transformGo_no_upload f bn bp ep fa ts (b + 1) fc
    simp [transformGo, ih.1, ih.2.1, ih.2.2.1, ih.2.2.2]

lemma transformGo_ok_spec (f bn bp ep : String) :
    ∀ (ts : List String) (b : Nat) (fc : List (String × String)),
      (transformGo f bn bp ep true none b fc ts).ok = true ∧
      (transformGo f bn bp ep true none b fc ts).storage
        = ts.map (bandUploadEvent bn bp) ∧
      (transformGo f bn bp ep true none b fc ts).locals.map BandWrite.bandNumber
        = List.range' (b + 1) ts.length ∧
      (transformGo f bn bp ep true none b fc ts).locals.map BandWrite.file
        = ts.map (fun t => f ++ "/" ++ timeKey t ++ ".tif") ∧
      (transformGo f bn bp ep true none b fc ts).forecasts
        = ts.foldl (fun d t => dictInsert d (timeKey t)
            (publicAddress bn ep bp (timeKey t ++ ".tif"))) fc
  | [], b, fc => by simp [transformGo]
  | t :: ts, b, fc => by
    have ih := transformGo_ok_spec f bn bp ep ts (b + 1)
      (dictInsert fc (timeKey t) (publicAddress bn ep bp (timeKey t ++ ".tif")))
    simp [transformGo, bandUploadEvent, ih.1, ih.2.1, ih.2.2.1, ih.2.2.2.1,
      ih.2.2.2.2, List.range'_succ]

lemma foldl_dictInsert_fresh (g : String → String) :
    ∀ (ts : List String) (fc : List (String × String)),
      (ts.map timeKey).Nodup →
      (∀ t ∈ ts, fc.any (fun kv => kv.1 == timeKey t) = false) →
      ts.foldl (fun d t => dictInsert d (timeKey t) (g t)) fc
        = fc ++ ts.map (fun t => (timeKey t, g t))
  | [], fc, _, _ => by simp
  | t :: ts, fc, hnd, hfresh => by
    have hnd2 : (timeKey t :: ts.map timeKey).Nodup := by simpa using hnd
    have hnotmem : timeKey t ∉ ts.map timeKey := (List.nodup_cons.mp hnd2).1
    have hfc : fc.any (fun kv => kv.1 == timeKey t) = false :=
      hfresh t (List.mem_cons_self _ _)
    have hstep : dictInsert fc (timeKey t) (g t) = fc ++ [(timeKey t, g t)] := by
      rw [dictInsert, if_neg (by simp [hfc])]
    have hfresh' : ∀ u ∈ ts,
        (fc ++ [(timeKey t, g t)]).any (fun kv => kv.1 == timeKey u) = false := by
      intro u hu
      rw [List.any_append]
      have h1 := hfresh u (List.mem_cons_of_mem _ hu)
      have h2 : (timeKey t == timeKey u) = false := by
        rw [beq_eq_false_iff_ne]
        intro he
        exact hnotmem (he ▸ List.mem_map_of_mem timeKey hu)
      simp [h1, h2]
    have hrec := foldl_dictInsert_fresh g ts (fc ++ [(timeKey t, g t)])
      (List.nodup_cons.mp hnd2).2 hfresh'
    rw [List.foldl_cons, hstep, hrec]
    simp

lemma transformGo_storage_mem (f bn bp ep : String) (u : Bool) (fa : Option Nat) :
    ∀ (ts : List String) (b : Nat) (fc : List (String × String))
      (e : StorageEvent),
      e ∈ (transformGo f bn bp ep u fa b fc ts).storage →
      ∃ t ∈ ts, e = bandUploadEvent bn bp t
  | [], b, fc, e => by simp [transformGo]
  | t :: ts, b, fc, e => by
    intro he
    by_cases hu : u = true
    · subst hu
      by_cases hf : (fa == some b) = true
      · rw [transformGo] at he
        simp [hf] at he
      · rw [transformGo] at he
        simp only [if_true, hf, if_false, Bool.false_eq_true] at he
        simp only [List.mem_cons] at he
        rcases he with he | he
        · exact ⟨t, List.mem_cons_self _ _, by rw [he]; rfl⟩
        · obtain ⟨u', hu', he'⟩ :=
            transformGo_storage_mem f bn bp ep true fa ts (b + 1) _ e he
          exact ⟨u', List.mem_cons_of_mem _ hu', he'⟩
    · have hu2 : u = false := by simpa using hu
      subst hu2
      rw [transformGo] at he
      simp only [Bool.false_eq_true, if_false] at he
      obtain ⟨u', hu', he'⟩ :=
        transformGo_storage_mem f bn bp ep false fa ts (b + 1) fc e he
      exact ⟨u', List.mem_cons_of_mem _ hu', he'⟩

lemma tif_ne_manifest (s : String) :
    s ++ ".tif" ≠ ("forecasts.json" : String) := by
  intro h
  have hd : (s ++ ".tif").data.reverse.head?
      = ("forecasts.json" : String).data.reverse.head? := by rw [h]
  rw [String.data_append, List.reverse_append] at hd
  have hrev : (".tif" : String).data.reverse = ['f', 'i', 't', '.'] := rfl
  rw [hrev] at hd
  simp at hd

lemma bandKey_ne_manifestKey (cfg : Config) (par s : String) :
    bandObjectKey cfg.bucketName (bucketPathOf cfg par) (s ++ ".tif")
      ≠ manifestKeyOf cfg par := by
  intro h
  rw [manifestKey_eq] at h
  have h' : bucketPathFullOf cfg par ++ "/" ++ (s ++ ".tif")
      = bucketPathFullOf cfg par ++ "/" ++ "forecasts.json" := h
  have hdata := congrArg String.data h'
  rw [String.data_append, String.data_append, String.data_append,
    String.data_append] at hdata
  have h2 : (s ++ ".tif").data = ("forecasts.json" : String).data :=
    List.append_cancel_left hdata
  exact tif_ne_manifest s (String.ext h2)

lemma runParam_success (cfg : Config) (p : ParamRun) (ds : Dataset)
    (h : p.fetch = FetchResult.success ds) :
    runParam cfg p =
      if (trOf cfg p ds).ok = true then
        { storage := StorageEvent.delTree (bucketPathFullOf cfg p.name) ::
            (trOf cfg p ds).storage
            ++ [StorageEvent.uploadObject (manifestKeyOf cfg p.name)
                 (jsonDumpDict (trOf cfg p ds).forecasts)],
          locals := (trOf cfg p ds).locals, ok := true }
      else
        { storage := StorageEvent.delTree (bucketPathFullOf cfg p.name) ::
            (trOf cfg p ds).storage,
          locals := (trOf cfg p ds).locals, ok := false } := by
  rw [runParam, h]

lemma runParam_events_under (cfg : Config) (p : ParamRun) (ds : Dataset)
    (h : p.fetch = FetchResult.success ds) :
    ∃ ups, (runParam cfg p).storage
        = StorageEvent.delTree (bucketPathFullOf cfg p.name) :: ups ∧
      ∀ e ∈ ups, eventUnder (bucketPathFullOf cfg p.name) e := by
  have hband : ∀ e ∈ (trOf cfg p ds).storage,
      eventUnder (bucketPathFullOf cfg p.name) e := by
    intro e he
    obtain ⟨t, _, he'⟩ := transformGo_storage_mem baseDataDir cfg.bucketName
      (bucketPathOf cfg p.name) cfg.bucketEndpoint cfg.upload p.failBandAt
      (normalizeDataset cfg.collection ds).times 0 [] e he
    rw [he']
    exact keyUnder_append (bucketPathFullOf cfg p.name) (timeKey t ++ ".tif")
  rw [runParam_success cfg p ds h]
  by_cases hok : (trOf cfg p ds).ok = true
  · rw [if_pos hok]
    refine ⟨_, rfl, ?_⟩
    intro e he
    rcases List.mem_append.mp he with he | he
    · exact hband e he
    · rcases List.mem_singleton.mp he with rfl
      exact keyUnder_manifestKey cfg p.name
  · rw [if_neg hok]
    exact ⟨_, rfl, hband⟩

/-! ### Concrete fixtures used by witnesses and counterexamples -/

/-- The default environment configuration of `ingestor.py` (default
endpoint, default base path, default collection, uploading enabled), with a
concrete bucket name. -/
def cfg0 : Config :=
  { bucketEndpoint := "https://obs.eu-de.otc.t-systems.com",
    bucketName := "bkt", bucketBasePath := "data/dmi/forecasts",
    upload := true, collection := "dkss_if" }

/-- A small forecast dataset with two six-hourly timesteps. -/
def ds0 : Dataset :=
  { times := ["2024-03-01T00:00:00", "2024-03-01T06:00:00"], crs := "crs84" }

/-- The default parameter, fetch succeeding, no injected fault. -/
def pOk : ParamRun :=
  { name := "sea-mean-deviation", fetch := FetchResult.success ds0,
    failBandAt := none }

/-- The default parameter with the upstream returning an error status. -/
def pHttpFail : ParamRun :=
  { name := "sea-mean-deviation", fetch := FetchResult.httpError,
    failBandAt := none }

/-- The default parameter whose first band upload raises an I/O error. -/
def pUploadFail : ParamRun :=
  { name := "sea-mean-deviation", fetch := FetchResult.success ds0,
    failBandAt := some 0 }

/-- A second configured parameter, fetch succeeding, no fault. -/
def pOk2 : ParamRun :=
  { name := "water-temperature", fetch := FetchResult.success ds0,
    failBandAt := none }

/-! ### Claims -/

/-- C1: if the upstream HTTP GET for a parameter returns a non-success
status, that parameter's run performs no storage side effect at all - the
prior Publication Target is not deleted, no band object is uploaded, no
manifest is written, and no local band file is produced; the error is only
logged and the loop carries on. -/
theorem c1_fetch_error_no_side_effects (cfg : Config) (p : ParamRun)
    (h : p.fetch = FetchResult.httpError) :
    runParam cfg p = { storage := [], locals := [], ok := true } := by
  rw [runParam, h]

/-- C1 witness: a concrete failed fetch produces no storage event. -/
theorem c1_fetch_error_no_side_effects_witness :
    runParam cfg0 pHttpFail = { storage := [], locals := [], ok := true } :=
  c1_fetch_error_no_side_effects cfg0 pHttpFail rfl

/-- C2 counterexample: for timestamp 2024-03-01T12:00:00.5 the code derives
the key 20240301T120000, not the claimed 20240301120000 - the two replace
calls remove hyphens and colons but not the T separator. -/
theorem c2_key_counterexample :
    timeKey "2024-03-01T12:00:00.5" = "20240301T120000" ∧
    timeKey "2024-03-01T12:00:00.5" ≠ "20240301120000" := by decide

/-- C2 (amended): the published band key is the timestamp string truncated
at the first dot (whole seconds) with every hyphen and colon removed; the T
date-time separator is retained, so timestamp 2024-03-01T12:00:00.5 yields
the key 20240301T120000, and the band object is named 20240301T120000.tif,
both locally and at the Publication Target. -/
theorem c2_band_key_format (folder bn bp ep : String) :
    (transform_cog_to_single_bands_and_upload_to_bucket folder
        ["2024-03-01T12:00:00.5"] bn bp ep true none).locals.map
        BandWrite.file
      = [folder ++ "/" ++ "20240301T120000" ++ ".tif"] ∧
    (transform_cog_to_single_bands_and_upload_to_bucket folder
        ["2024-03-01T12:00:00.5"] bn bp ep true none).storage
      = [StorageEvent.uploadObject
          (bandObjectKey bn bp ("20240301T120000" ++ ".tif"))
          ("20240301T120000" ++ ".tif")] := by
  have hk : timeKey "2024-03-01T12:00:00.5" = "20240301T120000" := by decide
  have h := transformGo_ok_spec folder bn bp ep ["2024-03-01T12:00:00.5"] 0 []
  constructor
  · rw [transform_cog_to_single_bands_and_upload_to_bucket, h.2.2.2.1]
    simp [hk]
  · rw [transform_cog_to_single_bands_and_upload_to_bucket, h.2.1]
    simp [bandUploadEvent, hk]

/-- C3 counterexample: with two configured parameters, a band-upload I/O
error while processing the first aborts the whole process: the run does not
complete, and the second parameter is never processed (its Publication
Target is not even deleted). -/
theorem c3_upload_error_counterexample :
    (runAll cfg0 [pUploadFail, pOk2]).2 = false ∧
    StorageEvent.delTree (bucketPathFullOf cfg0 "water-temperature") ∉
      (runAll cfg0 [pUploadFail, pOk2]).1 := by decide

/-- C3 (amended): a fetch failure never prevents the subsequent parameters
from being processed - the caught HTTPError only skips that parameter and
the loop continues unchanged. But an error later in a parameter's pipeline
(such as a band-upload I/O error) is not caught: it aborts the whole
process, so the remaining parameters are not processed. -/
theorem c3_only_fetch_failures_isolated (cfg : Config) (p : ParamRun)
    (ps : List ParamRun) :
    (p.fetch = FetchResult.httpError → runAll cfg (p :: ps) = runAll cfg ps) ∧
    ((runParam cfg p).ok = false →
      runAll cfg (p :: ps) = ((runParam cfg p).storage, false)) := by
  constructor
  · intro h
    have hr : runParam cfg p = { storage := [], locals := [], ok := true } := by
      rw [runParam, h]
    rw [runAll, hr]
    simp
  · intro h
    rw [runAll]
    simp [h]

/-- C3 witness: a concrete fetch failure in the head parameter leaves the
processing of the tail untouched. -/
theorem c3_only_fetch_failures_isolated_witness :
    runAll cfg0 [pHttpFail, pOk2] = runAll cfg0 [pOk2] :=
  (c3_only_fetch_failures_isolated cfg0 pHttpFail [pOk2]).1 rfl

/-- C4: republishing the same dataset to the same Publication Target is
idempotent: starting from any prior store contents, a run leaves under the
target exactly the objects of a run from an empty store (same keys and
byte-identical contents, manifest included), and a second run leaves the
first run's target state unchanged - the initial full deletion of the
target guarantees no leftover keys from a previous, larger forecast. -/
theorem c4_republish_idempotent (cfg : Config) (p : ParamRun) (ds : Dataset)
    (s : Store) (h : p.fetch = FetchResult.success ds) :
    storeUnder (bucketPathFullOf cfg p.name)
        (applyEvents s (runParam cfg p).storage)
      = storeUnder (bucketPathFullOf cfg p.name)
          (applyEvents [] (runParam cfg p).storage) ∧
    storeUnder (bucketPathFullOf cfg p.name)
        (applyEvents (applyEvents s (runParam cfg p).storage)
          (runParam cfg p).storage)
      = storeUnder (bucketPathFullOf cfg p.name)
          (applyEvents s (runParam cfg p).storage) := by
  obtain ⟨ups, heq, hall⟩ := runParam_events_under cfg p ds h
  have aux : ∀ s₁ s₂ : Store,
      storeUnder (bucketPathFullOf cfg p.name)
          (applyEvents s₁ (runParam cfg p).storage)
        = storeUnder (bucketPathFullOf cfg p.name)
            (applyEvents s₂ (runParam cfg p).storage) := by
    intro s₁ s₂
    rw [heq]
    exact storeUnder_applyEvents_congr _ ups hall
      (applyEvent s₁ (StorageEvent.delTree (bucketPathFullOf cfg p.name)))
      (applyEvent s₂ (StorageEvent.delTree (bucketPathFullOf cfg p.name)))
      (by rw [storeUnder_applyEvent_delTree, storeUnder_applyEvent_delTree])
  exact ⟨aux s [], aux _ s⟩

/-- C4 witness: a concrete republication on top of a store holding a stale
band under the same target yields the same target state as publishing into
an empty store. -/
theorem c4_republish_idempotent_witness :
    storeUnder (bucketPathFullOf cfg0 "sea-mean-deviation")
        (applyEvents
          [("bkt/data/dmi/forecasts/dkss_if/sea-mean-deviation/stale.tif",
            "old")]
          (runParam cfg0 pOk).storage)
      = storeUnder (bucketPathFullOf cfg0 "sea-mean-deviation")
          (applyEvents [] (runParam cfg0 pOk).storage) :=
  (c4_republish_idempotent cfg0 pOk ds0
    [("bkt/data/dmi/forecasts/dkss_if/sea-mean-deviation/stale.tif", "old")]
    rfl).1

/-- C5 counterexample: two unique ascending timestamps that differ only in
the sub-second part collide to a single key after truncation to whole
seconds, so the manifest gets one entry instead of two and both band
uploads go to the same object key. -/
theorem c5_counterexample :
    (["2024-03-01T12:00:00.1", "2024-03-01T12:00:00.5"] : List String).Nodup ∧
    (["2024-03-01T12:00:00.1", "2024-03-01T12:00:00.5"] : List String).length
      = 2 ∧
    (transform_cog_to_single_bands_and_upload_to_bucket "/app/data"
        ["2024-03-01T12:00:00.1", "2024-03-01T12:00:00.5"] "bkt"
        "data/dmi/forecasts/dkss_if/sea-mean-deviation"
        "https://obs.eu-de.otc.t-systems.com" true none).forecasts.length
      = 1 := by decide

/-- C5 (amended): provided the timestamps remain pairwise distinct after
key derivation (truncation to whole seconds), publishing N timesteps with
uploading enabled performs exactly N band uploads, one per timestamp in
ascending time order, to N pairwise distinct object keys; the manifest
mapping has exactly N entries in the same order; and timestep i is
extracted from raster band i+1. -/
theorem c5_publish_counts (folder bn bp ep : String) (times : List String)
    (h : (times.map timeKey).Nodup) :
    (transform_cog_to_single_bands_and_upload_to_bucket folder times bn bp ep
        true none).ok = true ∧
    (transform_cog_to_single_bands_and_upload_to_bucket folder times bn bp ep
        true none).storage = times.map (bandUploadEvent bn bp) ∧
    (times.map (fun t => bandObjectKey bn bp (timeKey t ++ ".tif"))).Nodup ∧
    (transform_cog_to_single_bands_and_upload_to_bucket folder times bn bp ep
        true none).forecasts
      = times.map (fun t =>
          (timeKey t, publicAddress bn ep bp (timeKey t ++ ".tif"))) ∧
    (transform_cog_to_single_bands_and_upload_to_bucket folder times bn bp ep
        true none).locals.map BandWrite.bandNumber
      = List.range' 1 times.length := by
  have hs := transformGo_ok_spec folder bn bp ep times 0 []
  refine ⟨hs.1, hs.2.1, ?_, ?_, hs.2.2.1⟩
  · have hinj : Function.Injective
        (fun k : String => bandObjectKey bn bp (k ++ ".tif")) := by
      intro a b hab
      have hd := congrArg String.data hab
      simp only [bandObjectKey, String.data_append] at hd
      exact String.ext (List.append_cancel_right (List.append_cancel_left hd))
    have hmm : times.map (fun t => bandObjectKey bn bp (timeKey t ++ ".tif"))
        = (times.map timeKey).map
            (fun k => bandObjectKey bn bp (k ++ ".tif")) := by
      rw [List.map_map]
      rfl
    rw [hmm]
    exact h.map hinj
  · rw [transform_cog_to_single_bands_and_upload_to_bucket, hs.2.2.2.2,
      foldl_dictInsert_fresh _ times [] h (fun t _ => rfl)]
    simp

/-- C5 witness: two whole-second-distinct timestamps publish two bands and
a two-entry manifest. -/
theorem c5_publish_counts_witness :
    ((["2024-03-01T00:00:00", "2024-03-01T06:00:00"].map timeKey).Nodup) ∧
    (transform_cog_to_single_bands_and_upload_to_bucket "/app/data"
        ["2024-03-01T00:00:00", "2024-03-01T06:00:00"] "bkt"
        "data/dmi/forecasts/dkss_if/sea-mean-deviation"
        "https://obs.eu-de.otc.t-systems.com" true none).forecasts
      = ["2024-03-01T00:00:00", "2024-03-01T06:00:00"].map (fun t =>
          (timeKey t, publicAddress "bkt" "https://obs.eu-de.otc.t-systems.com"
            "data/dmi/forecasts/dkss_if/sea-mean-deviation"
            (timeKey t ++ ".tif"))) :=
  ⟨by decide,
   (c5_publish_counts "/app/data" "bkt"
     "data/dmi/forecasts/dkss_if/sea-mean-deviation"
     "https://obs.eu-de.otc.t-systems.com"
     ["2024-03-01T00:00:00", "2024-03-01T06:00:00"] (by decide)).2.2.2.1⟩

/-- C6: with a successful fetch, the manifest upload is the last storage
write of the parameter's run - it comes after the target deletion and after
every band upload of that run; and if a band upload fails, the aborted run
contains no manifest upload at all. -/
theorem c6_manifest_is_commit_signal (cfg : Config) (p : ParamRun)
    (ds : Dataset) (h : p.fetch = FetchResult.success ds) :
    ((runParam cfg p).ok = true →
      (runParam cfg p).storage
        = StorageEvent.delTree (bucketPathFullOf cfg p.name) ::
            (trOf cfg p ds).storage
            ++ [StorageEvent.uploadObject (manifestKeyOf cfg p.name)
                 (jsonDumpDict (trOf cfg p ds).forecasts)]) ∧
    ((runParam cfg p).ok = false →
      ∀ c, StorageEvent.uploadObject (manifestKeyOf cfg p.name) c ∉
        (runParam cfg p).storage) := by
  rw [runParam_success cfg p ds h]
  by_cases hok : (trOf cfg p ds).ok = true
  · rw [if_pos hok]
    exact ⟨fun _ => rfl, fun hfalse => absurd hfalse (by simp)⟩
  · rw [if_neg hok]
    constructor
    · intro htrue; exact absurd htrue (by simp)
    · intro _ c hmem
      rcases List.mem_cons.mp hmem with hmem | hmem
      · exact StorageEvent.noConfusion hmem
      · obtain ⟨t, _, ht⟩ := transformGo_storage_mem baseDataDir
          cfg.bucketName (bucketPathOf cfg p.name) cfg.bucketEndpoint
          cfg.upload p.failBandAt (normalizeDataset cfg.collection ds).times
          0 [] _ hmem
        rw [bandUploadEvent] at ht
        injection ht with h1 h2
        exact bandKey_ne_manifestKey cfg p.name (timeKey t) h1.symm

/-- C6 witness: in a concrete successful run the storage trace is exactly
deletion, then the band uploads, then the manifest upload last. -/
theorem c6_manifest_is_commit_signal_witness :
    (runParam cfg0 pOk).storage
      = StorageEvent.delTree (bucketPathFullOf cfg0 "sea-mean-deviation") ::
          (trOf cfg0 pOk ds0).storage
          ++ [StorageEvent.uploadObject
               (manifestKeyOf cfg0 "sea-mean-deviation")
               (jsonDumpDict (trOf cfg0 pOk ds0).forecasts)] :=
  (c6_manifest_is_commit_signal cfg0 pOk ds0 rfl).1 (by decide)

/-- C7: deleting a Publication Target that does not exist succeeds: the
underlying recursive removal raises FileNotFoundError on a path with no
objects under it, `delete_outdated_forecasts` catches it, only logs it, and
returns with the store unchanged - the absence is not surfaced as a
failure. -/
theorem c7_delete_missing_target_succeeds (store : Store) (path : String)
    (h : store.any (fun kv => keyUnder path kv.1) = false) :
    s3rmRecursive store path = Except.error "FileNotFoundError" ∧
    delete_outdated_forecasts store path = Except.ok store := by
  have h' : ¬ store.any (fun kv => keyUnder path kv.1) = true := by simp [h]
  constructor
  · rw [s3rmRecursive, if_neg h']
  · rw [delete_outdated_forecasts, s3rmRecursive, if_neg h']

/-- C7 witness: deleting a target absent from a concrete store returns the
store unchanged. -/
theorem c7_delete_missing_target_succeeds_witness :
    delete_outdated_forecasts [("unrelated/key.txt", "v")]
        "bkt/data/dmi/forecasts/dkss_if/sea-mean-deviation"
      = Except.ok [("unrelated/key.txt", "v")] :=
  (c7_delete_missing_target_succeeds [("unrelated/key.txt", "v")]
    "bkt/data/dmi/forecasts/dkss_if/sea-mean-deviation" (by decide)).2

/-- C8: the dataset is tagged with the fixed Lambert source reference and
reprojected to geographic coordinates (EPSG:4326) before raster conversion
if and only if the collection name starts with the model-family
string harmonie (which is also exactly when the upstream query asks for the
native reference); otherwise the dataset passed on to conversion is the
fetched dataset unchanged, reference included. -/
theorem c8_reprojection_iff_model_family (collection : String)
    (ds : Dataset) :
    (pyStartsWith collection "harmonie" = true →
      crsQueryHint collection = "native" ∧
      normalizeDataset collection ds = reproject_from_lambert ds "epsg:4326" ∧
      (normalizeDataset collection ds).crs = "epsg:4326") ∧
    (pyStartsWith collection "harmonie" = false →
      crsQueryHint collection = "crs84" ∧
      normalizeDataset collection ds = ds) := by
  constructor
  · intro h
    refine ⟨?_, ?_, ?_⟩
    · rw [crsQueryHint, if_pos h]
    · rw [normalizeDataset, if_pos h]
    · rw [normalizeDataset, if_pos h, reproject_from_lambert]
  · intro h
    have h' : ¬ pyStartsWith collection "harmonie" = true := by simp [h]
    exact ⟨by rw [crsQueryHint, if_neg h'],
      by rw [normalizeDataset, if_neg h']⟩

/-- C8 witness: a harmonie collection is reprojected to EPSG:4326 and asks
upstream for the native reference; the default collection passes through
unchanged and asks for crs84. -/
theorem c8_reprojection_iff_model_family_witness :
    crsQueryHint "harmonie_dini_sf" = "native" ∧
    (normalizeDataset "harmonie_dini_sf" ds0).crs = "epsg:4326" ∧
    crsQueryHint "dkss_if" = "crs84" ∧
    normalizeDataset "dkss_if" ds0 = ds0 :=
  ⟨((c8_reprojection_iff_model_family "harmonie_dini_sf" ds0).1
      (by decide)).1,
   ((c8_reprojection_iff_model_family "harmonie_dini_sf" ds0).1
      (by decide)).2.2,
   ((c8_reprojection_iff_model_family "dkss_if" ds0).2 (by decide)).1,
   ((c8_reprojection_iff_model_family "dkss_if" ds0).2 (by decide)).2⟩

/-- C9: when the upload-enable flag is false and the fetch succeeds, the
run still deletes the prior Publication Target and still uploads a
manifest, and that manifest is the serialization of the empty mapping -
even though all N band files were produced locally. -/
theorem c9_no_upload_still_deletes_and_manifests (cfg : Config)
    (p : ParamRun) (ds : Dataset) (h : p.fetch = FetchResult.success ds)
    (hu : cfg.upload = false) :
    (runParam cfg p).storage
      = [StorageEvent.delTree (bucketPathFullOf cfg p.name),
         StorageEvent.uploadObject (manifestKeyOf cfg p.name) "\x7b\x7d"] ∧
    (runParam cfg p).locals.length = ds.times.length ∧
    (runParam cfg p).ok = true := by
  have htr := transformGo_no_upload baseDataDir cfg.bucketName
    (bucketPathOf cfg p.name) cfg.bucketEndpoint p.failBandAt
    (normalizeDataset cfg.collection ds).times 0 []
  have htr' : trOf cfg p ds = transformGo baseDataDir cfg.bucketName
      (bucketPathOf cfg p.name) cfg.bucketEndpoint false p.failBandAt 0 []
      (normalizeDataset cfg.collection ds).times := by
    rw [trOf, transform_cog_to_single_bands_and_upload_to_bucket, hu]
  rw [runParam_success cfg p ds h, if_pos (by rw [htr']; exact htr.2.2.1)]
  refine ⟨?_, ?_, rfl⟩
  · show StorageEvent.delTree (bucketPathFullOf cfg p.name) ::
      (trOf cfg p ds).storage
      ++ [StorageEvent.uploadObject (manifestKeyOf cfg p.name)
           (jsonDumpDict (trOf cfg p ds).forecasts)] = _
    rw [htr', htr.1, htr.2.1]
    rfl
  · show (trOf cfg p ds).locals.length = ds.times.length
    rw [htr', htr.2.2.2, normalize_times]

/-- C9 witness: a concrete run with uploading disabled deletes the target
and uploads the empty-mapping manifest while writing both band files
locally. -/
theorem c9_no_upload_still_deletes_and_manifests_witness :
    (runParam { cfg0 with upload := false } pOk).storage
      = [StorageEvent.delTree
           (bucketPathFullOf { cfg0 with upload := false }
             "sea-mean-deviation"),
         StorageEvent.uploadObject
           (manifestKeyOf { cfg0 with upload := false } "sea-mean-deviation")
           "\x7b\x7d"] ∧
    (runParam { cfg0 with upload := false } pOk).locals.length = 2 :=
  ⟨(c9_no_upload_still_deletes_and_manifests { cfg0 with upload := false }
      pOk ds0 rfl rfl).1,
   (c9_no_upload_still_deletes_and_manifests { cfg0 with upload := false }
      pOk ds0 rfl rfl).2.1⟩

/-- C10: the public address recorded in the manifest is built with a
character-set lstrip of the endpoint, not a removal of the literal scheme:
every leading character drawn from the set of characters of "https://" is
removed, so when the hostname itself begins with such a character the
recorded address drops leading hostname characters as well. -/
theorem c10_address_charset_strip (bn bp file : String) (c : Char)
    (cs : List Char)
    (hc : ("https://" : String).data.contains c = true) :
    publicAddress bn ("https://" ++ String.mk (c :: cs)) bp file
      = "https://" ++ bn ++ "." ++ pyLstrip (String.mk cs) "https://" ++ "/"
        ++ bp ++ "/" ++ file := by
  have hstrip : pyLstrip ("https://" ++ String.mk (c :: cs)) "https://"
      = pyLstrip (String.mk cs) "https://" := by
    rw [pyLstrip, pyLstrip]
    have hd : ("https://" ++ String.mk (c :: cs)).data
        = ("https://" : String).data ++ (c :: cs) := by
      rw [String.data_append]
    rw [hd, List.dropWhile_append_of_pos (by decide),
      List.dropWhile_cons_of_pos hc]
  rw [publicAddress, hstrip]

/-- C10 witness: for an endpoint with hostname storage.example.com the
recorded address host part becomes orage.example.com - the leading s and t
of the hostname are swallowed by the character-set strip. -/
theorem c10_address_charset_strip_witness :
    publicAddress "mybucket"
        ("https://" ++ String.mk ('s' :: "torage.example.com".data))
        "data/dmi/forecasts/dkss_if/sea-mean-deviation"
        "20240301T000000.tif"
      = "https://" ++ "mybucket" ++ "."
        ++ pyLstrip (String.mk "torage.example.com".data) "https://" ++ "/"
        ++ "data/dmi/forecasts/dkss_if/sea-mean-deviation" ++ "/"
        ++ "20240301T000000.tif" ∧
    pyLstrip (String.mk "torage.example.com".data) "https://"
      = "orage.example.com" :=
  ⟨c10_address_charset_strip "mybucket"
     "data/dmi/forecasts/dkss_if/sea-mean-deviation" "20240301T000000.tif"
     's' "torage.example.com".data (by decide), by decide⟩
